import Mathlib

/-!
# ttyopen: terminal opener

A shallow embedding of `src/ttyopen.c` (`printerr`, `sanitize_stdio`,
`set_sane_term`, `console_init`, `main`) together with a small model of the
POSIX services the program calls (descriptor table, environment, line
discipline, process-image replacement), and theorems about them.

Conventions.
* C `int` results of system calls are `Int` (`-1` on failure); descriptor
  slots are `Nat`.
* A `char *` that may be `NULL` is an `Option String` or a `CPtr`.
* Every call that is visible from outside the process appends an `Effect`
  to the trace of the process state.
* The constants of the system headers and the preprocessor switches the
  source tests are collected in `Platform`; what the outside world answers
  (which paths open, whether the image can be replaced) is in `World`.
-/

namespace TtyOpen

/-! ## Platform constants -/

/-- The values the system headers and the preprocessor provide to `ttyopen.c`. -/
structure Platform where
  /-- `__linux__` is defined. -/
  linux : Bool
  /-- `__FreeBSD__` or `__FreeBSD_kernel__` is defined. -/
  freebsd : Bool
  VINTR : Nat
  VQUIT : Nat
  VERASE : Nat
  VKILL : Nat
  VEOF : Nat
  VSTART : Nat
  VSTOP : Nat
  VSUSP : Nat
  CBAUD : Nat
  CBAUDEX : Nat
  CSIZE : Nat
  CSTOPB : Nat
  PARENB : Nat
  PARODD : Nat
  /-- `none` when the headers do not define `CRTSCTS`. -/
  CRTSCTS : Option Nat
  CREAD : Nat
  HUPCL : Nat
  CLOCAL : Nat
  ICRNL : Nat
  IXON : Nat
  IXOFF : Nat
  OPOST : Nat
  ONLCR : Nat
  ISIG : Nat
  ICANON : Nat
  ECHO : Nat
  ECHOE : Nat
  ECHOK : Nat
  ECHOCTL : Nat
  ECHOKE : Nat
  IEXTEN : Nat
  EBADF : Int
  EMFILE : Int
  EFAULT : Int
  /-- `_PATH_DEVNULL` of `<paths.h>`. -/
  PATH_DEVNULL : String
  /-- `strerror` of `<string.h>`. -/
  strerror : Int → String

/-- POSIX requires the subscripts of the control-character array to be
pairwise distinct (only `VMIN`/`VTIME` may coincide with `VEOF`/`VEOL`). -/
def Platform.cc_distinct (P : Platform) : Prop :=
  [P.VINTR, P.VQUIT, P.VERASE, P.VKILL, P.VEOF, P.VSTART, P.VSTOP, P.VSUSP].Nodup

instance (P : Platform) : Decidable P.cc_distinct := by
  unfold Platform.cc_distinct; infer_instance

/-- The text glibc returns from `strerror` for a few codes. -/
def glibc_strerror (e : Int) : String :=
  if e = 2 then "No such file or directory"
  else if e = 9 then "Bad file descriptor"
  else if e = 13 then "Permission denied"
  else if e = 24 then "Too many open files"
  else if e < 0 then "Unknown error -" ++ toString e.natAbs
  else "Unknown error " ++ toString e.natAbs

/-- The header values of Linux with glibc (x86). Used for concrete evaluation. -/
def linux_glibc : Platform where
  linux := true
  freebsd := false
  VINTR := 0
  VQUIT := 1
  VERASE := 2
  VKILL := 3
  VEOF := 4
  VSTART := 8
  VSTOP := 9
  VSUSP := 10
  CBAUD := 4111
  CBAUDEX := 4096
  CSIZE := 48
  CSTOPB := 64
  PARENB := 256
  PARODD := 512
  CRTSCTS := some 2147483648
  CREAD := 128
  HUPCL := 1024
  CLOCAL := 2048
  ICRNL := 256
  IXON := 1024
  IXOFF := 4096
  OPOST := 1
  ONLCR := 4
  ISIG := 1
  ICANON := 2
  ECHO := 8
  ECHOE := 16
  ECHOK := 32
  ECHOCTL := 512
  ECHOKE := 2048
  IEXTEN := 32768
  EBADF := 9
  EMFILE := 24
  EFAULT := 14
  PATH_DEVNULL := "/dev/null"
  strerror := glibc_strerror

/-! ## Line discipline configuration -/

/-- The `struct termios` of `<termios.h>`; `c_cc` is the control-character
array, indexed by subscript. -/
structure Termios where
  c_iflag : Nat
  c_oflag : Nat
  c_cflag : Nat
  c_lflag : Nat
  c_line : Nat
  c_cc : Nat → Nat
  c_ispeed : Nat
  c_ospeed : Nat

/-- The array assignment `cc[i] = v`. -/
def cc_set (cc : Nat → Nat) (i v : Nat) : Nat → Nat :=
  fun j => if j = i then v else cc j

/-- The bits `set_sane_term` keeps from the previous control flags:
`CBAUD | CBAUDEX | CSIZE | CSTOPB | PARENB | PARODD | CRTSCTS`, with
`CRTSCTS` defined as `0` where the headers lack it. -/
def cflag_keep (P : Platform) : Nat :=
  P.CBAUD ||| P.CBAUDEX ||| P.CSIZE ||| P.CSTOPB ||| P.PARENB ||| P.PARODD ||| P.CRTSCTS.getD 0

/-- The bits `set_sane_term` forces on: `CREAD | HUPCL | CLOCAL`. -/
def cflag_force (P : Platform) : Nat :=
  P.CREAD ||| P.HUPCL ||| P.CLOCAL

/-- Lines 59-89 of `set_sane_term`: the assignments made to the local
`struct termios tty` between `tcgetattr` and `tcsetattr`, in source order. -/
def sane_termios (P : Platform) (tty : Termios) : Termios :=
  /- set control chars -/
  let tty := { tty with c_cc := cc_set tty.c_cc P.VINTR 3 }
  let tty := { tty with c_cc := cc_set tty.c_cc P.VQUIT 28 }
  let tty := { tty with c_cc := cc_set tty.c_cc P.VERASE 127 }
  let tty := { tty with c_cc := cc_set tty.c_cc P.VKILL 21 }
  let tty := { tty with c_cc := cc_set tty.c_cc P.VEOF 4 }
  let tty := { tty with c_cc := cc_set tty.c_cc P.VSTART 17 }
  let tty := { tty with c_cc := cc_set tty.c_cc P.VSTOP 19 }
  let tty := { tty with c_cc := cc_set tty.c_cc P.VSUSP 26 }
  /- use line discipline 0 -/
  let tty := if P.linux then { tty with c_line := 0 } else tty
  /- Make it be sane -/
  let tty := { tty with c_cflag := tty.c_cflag &&& cflag_keep P }
  let tty := { tty with c_cflag := tty.c_cflag ||| cflag_force P }
  /- input modes -/
  let tty := { tty with c_iflag := P.ICRNL ||| P.IXON ||| P.IXOFF }
  /- output modes -/
  let tty := { tty with c_oflag := P.OPOST ||| P.ONLCR }
  /- local modes -/
  let tty := { tty with c_lflag := P.ISIG ||| P.ICANON ||| P.ECHO ||| P.ECHOE ||| P.ECHOK
                                    ||| P.ECHOCTL ||| P.ECHOKE ||| P.IEXTEN }
  tty

/-! ## Process state and the services of the system -/

/-- A `char *` slot of an array: `NULL`, a string, or never assigned. -/
inductive CPtr where
  | null
  | str (s : String)
  | undef
  deriving DecidableEq

/-- How `open` is asked to open a path: the flag words used by the source. -/
inductive OFlag where
  /-- `O_RDWR`. -/
  | rdwr
  /-- `O_RDONLY`. -/
  | rdonly
  /-- `O_RDWR | O_NONBLOCK | O_NOCTTY`. -/
  | rdwr_nonblock_noctty
  deriving DecidableEq

/-- The calls of the program that are visible from outside, with their
arguments and result. -/
inductive Effect where
  /-- Text written to a stream through `vfprintf`/`fprintf`. -/
  | write (fd : Nat) (text : String)
  | sys_open (path : String) (flags : OFlag) (ret : Int)
  | sys_dup (fd : Int) (ret : Int)
  | sys_dup2 (oldfd : Int) (newfd : Int) (ret : Int)
  | sys_close (fd : Int) (ret : Int)
  | setsid
  | tcgetattr (fd : Nat)
  | tcsetattr (fd : Nat) (cfg : Termios)
  | setenv (name : String) (value : String) (overwrite : Bool)
  | execve (path : CPtr) (argv : List CPtr) (envp : List String)

/-- Whether an effect is one of `open`, `dup`, `dup2`, `close`, `setsid`,
`tcsetattr`, `setenv`, `execve`. -/
def Effect.is_descriptor_or_session_op : Effect → Bool
  | .sys_open _ _ _ => true
  | .sys_dup _ _ => true
  | .sys_dup2 _ _ _ => true
  | .sys_close _ _ => true
  | .setsid => true
  | .tcsetattr _ _ => true
  | .setenv _ _ _ => true
  | .execve _ _ _ => true
  | _ => false

/-- Whether an effect is an `open` of the given path. -/
def Effect.is_open_of (path : String) : Effect → Bool
  | .sys_open p _ _ => p == path
  | _ => false

/-- Whether an effect is an `execve`. -/
def Effect.is_execve : Effect → Bool
  | .execve _ _ _ => true
  | _ => false

/-- The texts written to standard error, in order. -/
def stderr_text (trace : List Effect) : List String :=
  trace.filterMap (fun e => match e with
    | .write 2 t => some t
    | _ => none)

/-- Whether an effect is a `dup` call that failed. -/
def Effect.is_failed_dup : Effect → Bool
  | .sys_dup _ r => decide (r < 0)
  | _ => false

/-- Whether an effect is a `dup` or a `dup2`. -/
def Effect.is_dup : Effect → Bool
  | .sys_dup _ _ => true
  | .sys_dup2 _ _ _ => true
  | _ => false

/-- What the world outside the process answers. -/
structure World where
  /-- Result of resolving a path for `open`: `none` when the file can be
  opened with these flags, `some e` when `open` fails with error `e`. -/
  open_err : String → OFlag → Option Int
  /-- Whether the capability query `ioctl(STDIN_FILENO, VT_OPENQRY, ..)`
  would return `0` on the terminal; the program as built never asks. -/
  vt_ok : Bool
  /-- Result of `execve` on a path: `none` when the image is replaced,
  `some e` when it fails with error `e`. -/
  exec_err : String → Option Int

/-- The state of the process. -/
structure Proc where
  /-- The descriptor table: the device each open slot refers to. -/
  fds : Nat → Option String
  /-- The number of slots of the table (`RLIMIT_NOFILE`). -/
  nofile : Nat
  /-- The environment (`environ`). -/
  env : List (String × String)
  /-- The line-discipline configuration `tcgetattr(STDIN_FILENO, ..)` stores. -/
  term : Termios
  errno : Int
  /-- The effects so far, oldest first. -/
  trace : List Effect

/-- Append an effect to the trace. -/
def Proc.emit (s : Proc) (e : Effect) : Proc :=
  { s with trace := s.trace ++ [e] }

/-- How a C function of the program ends. -/
inductive Res (α : Type) where
  /-- It returned. -/
  | ret (a : α) (s : Proc)
  /-- It called `exit`. -/
  | exit (status : Int) (s : Proc)
  /-- The process image was replaced. -/
  | exec (s : Proc)
  /-- The iteration bound of the model was reached. -/
  | stuck

/-- The state in which the function returned, if it did. -/
def Res.returned {α : Type} : Res α → Option Proc
  | .ret _ s => some s
  | _ => none

/-- The state a result carries. -/
def Res.state {α : Type} : Res α → Option Proc
  | .ret _ s => some s
  | .exit _ s => some s
  | .exec s => some s
  | .stuck => none

/-- The exit status the parent sees: the low eight bits of the value given
to `exit` or returned from `main`. -/
def Res.exit_status : Res Int → Option Int
  | .ret v _ => some (v % 256)
  | .exit v _ => some (v % 256)
  | _ => none

/-- The conversion `(unsigned)fd` of a 32-bit `int`. -/
def unsigned (x : Int) : Int := x % 4294967296

/-- The device an `int` descriptor refers to, if it is open. -/
def Proc.fd_get (s : Proc) (fd : Int) : Option String :=
  if 0 ≤ fd then s.fds fd.toNat else none

/-- Assignment of one slot of the descriptor table. -/
def fds_set (fds : Nat → Option String) (i : Nat) (v : Option String) : Nat → Option String :=
  fun j => if j = i then v else fds j

/-- The first free slot among the `n` slots starting at `i`. -/
def first_free (fds : Nat → Option String) : Nat → Nat → Option Nat
  | _, 0 => none
  | i, n + 1 => if (fds i).isNone then some i else first_free fds (i + 1) n

/-- The lowest-numbered free slot, which `open` and `dup` allocate. A
descriptor is a C `int`, so only slots below `2^31` are handed out. -/
def Proc.lowest_free (s : Proc) : Option Nat :=
  first_free s.fds 0 (min s.nofile 2147483648)

/-- Allocate the lowest free slot for a device; `EMFILE` if there is none. -/
def Proc.alloc (P : Platform) (s : Proc) (dev : String) : Int × Proc :=
  match s.lowest_free with
  | some fd => ((fd : Int), { s with fds := fds_set s.fds fd (some dev) })
  | none => (-1, { s with errno := P.EMFILE })

/-- The call `open(path, flags)`. -/
def sys_open (P : Platform) (W : World) (path : String) (flags : OFlag) (s : Proc) : Int × Proc :=
  let r : Int × Proc :=
    match W.open_err path flags with
    | some e => (-1, { s with errno := e })
    | none => s.alloc P path
  (r.1, r.2.emit (.sys_open path flags r.1))

/-- The call `dup(fd)`. -/
def sys_dup (P : Platform) (fd : Int) (s : Proc) : Int × Proc :=
  let r : Int × Proc :=
    match s.fd_get fd with
    | none => (-1, { s with errno := P.EBADF })
    | some dev => s.alloc P dev
  (r.1, r.2.emit (.sys_dup fd r.1))

/-- The call `dup2(oldfd, newfd)`. -/
def sys_dup2 (P : Platform) (oldfd : Int) (newfd : Nat) (s : Proc) : Int × Proc :=
  let r : Int × Proc :=
    match s.fd_get oldfd with
    | none => (-1, { s with errno := P.EBADF })
    | some dev =>
      if s.nofile ≤ newfd then (-1, { s with errno := P.EBADF })
      else ((newfd : Int), { s with fds := fds_set s.fds newfd (some dev) })
  (r.1, r.2.emit (.sys_dup2 oldfd newfd r.1))

/-- The call `close(fd)`. -/
def sys_close (P : Platform) (fd : Int) (s : Proc) : Int × Proc :=
  let r : Int × Proc :=
    match s.fd_get fd with
    | none => (-1, { s with errno := P.EBADF })
    | some _ => (0, { s with fds := fds_set s.fds fd.toNat none })
  (r.1, r.2.emit (.sys_close fd r.1))

/-- The call `setsid()`; its result is not used by the source. -/
def setsid (s : Proc) : Proc := s.emit .setsid

/-- The call `getenv(name)`. -/
def getenv (s : Proc) (name : String) : Option String :=
  s.env.lookup name

/-- Set a variable in an environment list, replacing an existing entry. -/
def env_put (name value : String) : List (String × String) → List (String × String)
  | [] => [(name, value)]
  | (n, v) :: rest => if n = name then (name, value) :: rest else (n, v) :: env_put name value rest

/-- The call `setenv(name, value, overwrite)`. -/
def setenv (name value : String) (overwrite : Bool) (s : Proc) : Proc :=
  let s := s.emit (.setenv name value overwrite)
  if overwrite || (getenv s name).isNone then { s with env := env_put name value s.env }
  else s

/-- The call `execve(path, argv, envp)`: `none` when the image is replaced,
otherwise the value returned (`-1`) with `errno` set. -/
def sys_execve (P : Platform) (W : World) (path : CPtr) (argv : List CPtr) (envp : List String)
    (s : Proc) : Option Int × Proc :=
  let s1 := s.emit (.execve path argv envp)
  let err : Option Int :=
    match path with
    | .str p => W.exec_err p
    | _ => some P.EFAULT
  match err with
  | none => (none, s1)
  | some e => (some (-1), { s1 with errno := e })

/-! ## The program -/

/-- Source `printerr`: print to `stderr`, then `exit(err)`. The formatted
text is passed already expanded. -/
def printerr {α : Type} (err : Int) (text : String) (s : Proc) : Res α :=
  .exit err (s.emit (.write 2 text))

/-- The loop `while ((unsigned)fd < 2) fd = dup(fd);` of `sanitize_stdio`,
with a bound on the number of iterations; `none` when the bound is reached
(`sanitize_loop_good` shows that two iterations are always enough). -/
def sanitize_loop (P : Platform) : Nat → Int → Proc → Option (Int × Proc)
  | 0, fd, s => if unsigned fd < 2 then none else some (fd, s)
  | n + 1, fd, s =>
    if unsigned fd < 2 then
      let r := sys_dup P fd s
      sanitize_loop P n r.1 r.2
    else some (fd, s)

/-- The part of `sanitize_stdio` after a descriptor was obtained. -/
def sanitize_tail (P : Platform) (fd : Int) (s : Proc) : Res Unit :=
  match sanitize_loop P 2 fd s with
  | none => .stuck
  | some (fd, s) =>
    /- if daemonizing, detach from stdio & ctty -/
    let s := setsid s
    let s := (sys_dup2 P fd 0 s).2
    let s := (sys_dup2 P fd 1 s).2
    let s := (sys_dup2 P fd 2 s).2
    .ret () s

/-- Source `sanitize_stdio`. -/
def sanitize_stdio (P : Platform) (W : World) (s : Proc) : Res Unit :=
  let r := sys_open P W P.PATH_DEVNULL .rdwr s
  if r.1 < 0 then
    let r := sys_open P W "/" .rdonly r.2
    if r.1 < 0 then printerr r.2.errno "cannot open \x27/\x27" r.2
    else sanitize_tail P r.1 r.2
  else sanitize_tail P r.1 r.2

/-- Source `set_sane_term`: read the configuration of standard input,
rewrite it, write it back with `TCSANOW`. -/
def set_sane_term (P : Platform) (s : Proc) : Proc :=
  let s := s.emit (.tcgetattr 0)
  let tty := s.term
  let tty := sane_termios P tty
  { s with term := tty, trace := s.trace ++ [.tcsetattr 0 tty] }

/-- Lines 101-112 of `console_init`: the device path to use. -/
def console_path (P : Platform) (tty : Option String) (s : Proc) : Option String :=
  match tty with
  | some t => some t
  | none =>
    let p := getenv s "CONSOLE"
    let p := if p.isNone then getenv s "console" else p
    if P.freebsd && p.isNone then some "/dev/console" else p

/-- Lines 131-142 of `console_init` as they are compiled. No header
included by the source defines `VT_OPENQRY`, so the preprocessor leaves out
the block of lines 132-140 (the capability query and the `vt102` setting;
its `setenv` call has two arguments and is rejected by the compiler when
the macro is supplied). What remains is lines 131, 141 and 142. -/
def console_term (s : Proc) : Proc :=
  let t := getenv s "TERM"
  if t.isNone then setenv "TERM" "linux" true s
  else s

/-- Lines 113-129 of `console_init`: attach the device to descriptors 0, 1, 2. -/
def console_attach (P : Platform) (W : World) (path : Option String) (s : Proc) : Res Unit :=
  match path with
  | some p =>
    let r := sys_open P W p .rdwr_nonblock_noctty s
    let fd := r.1
    let s := r.2
    if fd ≥ 0 then
      let s := (sys_dup2 P fd 0 s).2
      let s := (sys_dup2 P fd 1 s).2
      let r := sys_dup2 P fd 2 s
      if r.1 ≠ 2 then printerr r.2.errno "cannot duplicate file descriptor" r.2
      else .ret () (sys_close P fd r.2).2
    else .ret () s
  | none =>
    /- Make sure fd 0,1,2 are not closed -/
    sanitize_stdio P W s

/-- Source `console_init`. -/
def console_init (P : Platform) (W : World) (tty : Option String) (s : Proc) : Res Unit :=
  match console_attach P W (console_path P tty s) s with
  | .ret _ s => .ret () (console_term s)
  | .exit c s => .exit c s
  | .exec s => .exec s
  | .stuck => .stuck

/-- The entry `argv[i]` as a pointer; `argv[argc]` is `NULL`. -/
def argv_at (argv : List String) (i : Nat) : CPtr :=
  match argv[i]? with
  | some a => .str a
  | none => .null

/-- What `%s` prints for a pointer (glibc prints `(null)` for `NULL`). -/
def fmt_s : CPtr → String
  | .str a => a
  | _ => "(null)"

/-- Lines 150-156 of `main`: the array `cmdargsptr`, declared with
`argc - 1` unassigned slots and then filled. -/
def cmdargs (argv : List String) : List CPtr :=
  let argc := argv.length
  let cmdargsptr : List CPtr := List.replicate (argc - 1) .undef
  let cmdargsptr := cmdargsptr.set 0 (argv_at argv 2)
  let cmdargsptr :=
    if argc > 3 then
      (List.range' 3 (argc - 3)).foldl (fun a i => a.set (i - 2) (argv_at argv i)) cmdargsptr
    else cmdargsptr
  cmdargsptr.set (argc - 2) .null

/-- Source `main`, with `argc = argv.length`. -/
def main (P : Platform) (W : World) (argv : List String) (envp : List String) (s : Proc) :
    Res Int :=
  if argv.length < 3 then
    printerr 1 ("usage: " ++ fmt_s (argv_at argv 0) ++ " TTYPATH CMD [ARG1] [ARG2] ...\n") s
  else
    let cmdargsptr := cmdargs argv
    match console_init P W argv[1]? s with
    | .exit c s => .exit c s
    | .exec s => .exec s
    | .stuck => .stuck
    | .ret _ s =>
      let s := set_sane_term P s
      let s := setsid s
      match sys_execve P W (argv_at argv 2) cmdargsptr envp s with
      | (none, s) => .exec s
      | (some exc, s) =>
        let s := if exc ≠ 0 then s.emit (.write 2 ("exec error: " ++ P.strerror exc ++ "\n")) else s
        .ret exc s

/-- Whether descriptors 0, 1 and 2 are all open and refer to the same device. -/
def Proc.stdio_on_one_device (s : Proc) : Bool :=
  (s.fds 0).isSome && s.fds 1 == s.fds 0 && s.fds 2 == s.fds 0

/-! ## Concrete inputs -/

/-- A world in which `/dev/tty1`, `/dev/null` and `/` can be opened and
`/bin/echo` and `/bin/true` can be executed; everything else fails with
`ENOENT` (2). The capability query would fail, as on a serial line. -/
def demo_world : World where
  open_err := fun p _ => if p = "/dev/tty1" ∨ p = "/dev/null" ∨ p = "/" then none else some 2
  vt_ok := false
  exec_err := fun p => if p = "/bin/echo" ∨ p = "/bin/true" then none else some 2

/-- A configuration with every field zero. -/
def zero_termios : Termios where
  c_iflag := 0
  c_oflag := 0
  c_cflag := 0
  c_lflag := 0
  c_line := 0
  c_cc := fun _ => 0
  c_ispeed := 0
  c_ospeed := 0

/-- A process with descriptors 0, 1, 2 open on `/dev/console`, an empty
environment and a table of 16 slots. -/
def demo_proc : Proc where
  fds := fun i => if i < 3 then some "/dev/console" else none
  nofile := 16
  env := []
  term := zero_termios
  errno := 0
  trace := []

/-- A process started with every descriptor closed. -/
def bare_proc : Proc := { demo_proc with fds := fun _ => none }

/-- A process started with standard input closed and descriptors 1 and 2
open on `/dev/console`. -/
def no_stdin_proc : Proc :=
  { demo_proc with fds := fun i => if i = 1 ∨ i = 2 then some "/dev/console" else none }

/-- A process whose descriptors 0 and 1 are open on different files and
whose descriptor 2 is closed. -/
def mixed_proc : Proc :=
  { demo_proc with
    fds := fun i => if i = 0 then some "/dev/pts/0" else if i = 1 then some "/tmp/log" else none }

/-- A process with a limit of three descriptors, started with descriptor 0
closed and descriptors 1 and 2 open on `/dev/pts/0`. -/
def full_proc : Proc :=
  { demo_proc with
    nofile := 3
    fds := fun i => if i = 1 ∨ i = 2 then some "/dev/pts/0" else none }

/-- A process with descriptors 0, 1, 2 open on `/dev/console` and a table
of four slots, so that exactly one slot is free. -/
def tight_proc : Proc := { demo_proc with nofile := 4 }

/-- A process like `demo_proc` with `TERM=linux` in its environment. -/
def term_linux_proc : Proc := { demo_proc with env := [("TERM", "linux")] }

/-- The state in which `console_init` returns when it is started without a
path and with every descriptor closed. -/
def sanitized_proc : Proc :=
  (console_init linux_glibc demo_world none bare_proc).returned.getD bare_proc

/-- The state in which `console_init` returns when it is started without a
path in `tight_proc`. -/
def tight_sanitized_proc : Proc :=
  (console_init linux_glibc demo_world none tight_proc).returned.getD tight_proc

/-- The state in which `console_init` returns when `/dev/tty1` is attached
in `demo_proc`. -/
def attached_proc : Proc :=
  (console_init linux_glibc demo_world (some "/dev/tty1") demo_proc).returned.getD demo_proc

/-- The state in which `console_init` returns in `mixed_proc` when the
terminal cannot be opened. -/
def unattached_proc : Proc :=
  (console_init linux_glibc demo_world (some "/dev/nonexistent") mixed_proc).returned.getD
    mixed_proc

/-! ## Theorems -/

/-! ### Line discipline -/

/-- Masking twice with the same keep-mask and forced bits changes nothing more. -/
theorem and_or_idem (x m f : Nat) : ((x &&& m ||| f) &&& m) ||| f = x &&& m ||| f := by
  apply Nat.eq_of_testBit_eq
  intro i
  simp only [Nat.testBit_or, Nat.testBit_and]
  cases x.testBit i <;> cases m.testBit i <;> cases f.testBit i <;> rfl

/-- C6: for every configuration read from standard input, `set_sane_term`
reads it once and writes back a configuration whose control characters are
interrupt 3, quit 28, erase 127, kill 21, end-of-file 4, start 17, stop 19
and suspend 26, whatever they were before (the subscripts being distinct,
as POSIX requires). -/
theorem set_sane_term_control_chars (P : Platform) (s : Proc) (h : P.cc_distinct) :
    (set_sane_term P s).trace = s.trace ++ [.tcgetattr 0, .tcsetattr 0 (sane_termios P s.term)] ∧
    (set_sane_term P s).term = sane_termios P s.term ∧
    (sane_termios P s.term).c_cc P.VINTR = 3 ∧
    (sane_termios P s.term).c_cc P.VQUIT = 28 ∧
    (sane_termios P s.term).c_cc P.VERASE = 127 ∧
    (sane_termios P s.term).c_cc P.VKILL = 21 ∧
    (sane_termios P s.term).c_cc P.VEOF = 4 ∧
    (sane_termios P s.term).c_cc P.VSTART = 17 ∧
    (sane_termios P s.term).c_cc P.VSTOP = 19 ∧
    (sane_termios P s.term).c_cc P.VSUSP = 26 := by
  unfold Platform.cc_distinct at h
  simp only [List.nodup_cons, List.mem_cons, List.mem_singleton, not_or, List.not_mem_nil,
    not_false_eq_true, List.nodup_nil, and_true] at h
  obtain ⟨⟨h1, h2, h3, h4, h5, h6, h7⟩, ⟨h8, h9, h10, h11, h12, h13⟩, ⟨h14, h15, h16, h17, h18⟩,
    ⟨h19, h20, h21, h22⟩, ⟨h23, h24, h25⟩, ⟨h26, h27⟩, h28⟩ := h
  refine ⟨?_, ?_, ?_, ?_, ?_, ?_, ?_, ?_, ?_, ?_⟩
  · simp [set_sane_term, Proc.emit]
  · simp [set_sane_term, Proc.emit]
  all_goals (cases hl : P.linux <;> simp [sane_termios, cc_set, hl, *])

/-- On Linux with glibc, starting from the all-zero configuration, the
configuration written back has the eight canonical control characters. -/
theorem set_sane_term_control_chars_witness :
    linux_glibc.cc_distinct ∧
    (sane_termios linux_glibc demo_proc.term).c_cc linux_glibc.VINTR = 3 ∧
    (sane_termios linux_glibc demo_proc.term).c_cc linux_glibc.VSUSP = 26 :=
  ⟨by decide,
   (set_sane_term_control_chars linux_glibc demo_proc (by decide)).2.2.1,
   (set_sane_term_control_chars linux_glibc demo_proc (by decide)).2.2.2.2.2.2.2.2.2⟩

/-- C7: for every prior configuration, the configuration `set_sane_term`
writes has control flags `(old AND keep-mask) OR (CREAD | HUPCL | CLOCAL)`,
so each bit is set exactly when it is forced or was set and is in the
keep-mask, and the three forced bits are set; input flags
`ICRNL | IXON | IXOFF`, output flags `OPOST | ONLCR`, local flags
`ISIG | ICANON | ECHO | ECHOE | ECHOK | ECHOCTL | ECHOKE | IEXTEN`; and, where
`__linux__` gives the structure a line-discipline number, that number is 0. -/
theorem set_sane_term_mode_flags (P : Platform) (s : Proc) :
    (set_sane_term P s).trace = s.trace ++ [.tcgetattr 0, .tcsetattr 0 (sane_termios P s.term)] ∧
    (sane_termios P s.term).c_cflag =
      (s.term.c_cflag &&&
        (P.CBAUD ||| P.CBAUDEX ||| P.CSIZE ||| P.CSTOPB ||| P.PARENB ||| P.PARODD
          ||| P.CRTSCTS.getD 0))
      ||| (P.CREAD ||| P.HUPCL ||| P.CLOCAL) ∧
    (∀ i, (sane_termios P s.term).c_cflag.testBit i =
      ((s.term.c_cflag.testBit i && (cflag_keep P).testBit i) || (cflag_force P).testBit i)) ∧
    (sane_termios P s.term).c_cflag &&& P.CREAD = P.CREAD ∧
    (sane_termios P s.term).c_cflag &&& P.HUPCL = P.HUPCL ∧
    (sane_termios P s.term).c_cflag &&& P.CLOCAL = P.CLOCAL ∧
    (sane_termios P s.term).c_iflag = P.ICRNL ||| P.IXON ||| P.IXOFF ∧
    (sane_termios P s.term).c_oflag = P.OPOST ||| P.ONLCR ∧
    (sane_termios P s.term).c_lflag =
      P.ISIG ||| P.ICANON ||| P.ECHO ||| P.ECHOE ||| P.ECHOK ||| P.ECHOCTL ||| P.ECHOKE
        ||| P.IEXTEN ∧
    (if P.linux then (sane_termios P s.term).c_line = 0
     else (sane_termios P s.term).c_line = s.term.c_line) := by
  have hc : (sane_termios P s.term).c_cflag = (s.term.c_cflag &&& cflag_keep P) ||| cflag_force P := by
    cases hl : P.linux <;> simp [sane_termios, hl]
  refine ⟨?_, ?_, ?_, ?_, ?_, ?_, ?_, ?_, ?_, ?_⟩
  · simp [set_sane_term, Proc.emit]
  · rw [hc]; rfl
  · intro i
    rw [hc, Nat.testBit_or, Nat.testBit_and]
  · rw [hc]
    apply Nat.eq_of_testBit_eq
    intro i
    simp only [cflag_force, Nat.testBit_or, Nat.testBit_and]
    cases P.CREAD.testBit i <;> simp
  · rw [hc]
    apply Nat.eq_of_testBit_eq
    intro i
    simp only [cflag_force, Nat.testBit_or, Nat.testBit_and]
    cases P.HUPCL.testBit i <;> simp
  · rw [hc]
    apply Nat.eq_of_testBit_eq
    intro i
    simp only [cflag_force, Nat.testBit_or, Nat.testBit_and]
    cases P.CLOCAL.testBit i <;> simp
  · cases hl : P.linux <;> simp [sane_termios, hl]
  · cases hl : P.linux <;> simp [sane_termios, hl]
  · cases hl : P.linux <;> simp [sane_termios, hl]
  · cases hl : P.linux <;> simp [sane_termios, hl]

/-- C8: the transformation `set_sane_term` applies to a configuration is
idempotent: applying it to an already normalized configuration changes no
field, and so a second `set_sane_term` writes what the first one wrote. -/
theorem sane_termios_idempotent (P : Platform) (c : Termios) (s : Proc) :
    sane_termios P (sane_termios P c) = sane_termios P c ∧
    (set_sane_term P (set_sane_term P s)).term = (set_sane_term P s).term := by
  have key : ∀ c, sane_termios P (sane_termios P c) = sane_termios P c := by
    intro c
    cases hl : P.linux <;>
    · simp only [sane_termios, hl, Bool.false_eq_true, if_false, if_true, and_or_idem]
      simp only [Termios.mk.injEq, true_and, and_true]
      funext j
      simp only [cc_set]
      split_ifs <;> rfl
  exact ⟨key c, key s.term⟩

/-! ### Usage error -/

/-- C1: for every invocation with fewer than three entries in `argv`, `main`
writes the usage message to standard error and exits with status 1; the
message is the only effect, so no `open`, `dup`, `dup2`, `close`, `setsid`,
`tcsetattr`, `setenv` or `execve` precedes termination. -/
theorem main_usage_exit (P : Platform) (W : World) (argv envp : List String) (s : Proc)
    (h : argv.length < 3) :
    main P W argv envp s =
      .exit 1 (s.emit (.write 2
        ("usage: " ++ fmt_s (argv_at argv 0) ++ " TTYPATH CMD [ARG1] [ARG2] ...\n"))) ∧
    (main P W argv envp s).exit_status = some 1 ∧
    ((main P W argv envp s).state.map
      (fun st => (st.trace.drop s.trace.length).any Effect.is_descriptor_or_session_op))
      = some false := by
  have e : main P W argv envp s =
      .exit 1 (s.emit (.write 2
        ("usage: " ++ fmt_s (argv_at argv 0) ++ " TTYPATH CMD [ARG1] [ARG2] ...\n"))) := by
    simp [main, h, printerr]
  refine ⟨e, ?_, ?_⟩
  · rw [e]; rfl
  · rw [e]
    simp [Res.state, Proc.emit, Effect.is_descriptor_or_session_op]

/-- With only a terminal path and no command, the process prints the usage
line and exits with status 1. -/
theorem main_usage_exit_witness :
    ["ttyopen", "/dev/tty1"].length < 3 ∧
    (main linux_glibc demo_world ["ttyopen", "/dev/tty1"] [] demo_proc).exit_status = some 1 :=
  ⟨by decide, (main_usage_exit linux_glibc demo_world ["ttyopen", "/dev/tty1"] [] demo_proc
    (by decide)).2.1⟩

/-! ### The argument vector -/

/-- The filling loop of `main` stores `f (k + 2)` in every slot `k` it visits
and leaves the other slots alone. -/
theorem fill_getElem? (f : Nat → CPtr) : ∀ (n s : Nat) (a : List CPtr) (k : Nat), 2 ≤ s →
    ((List.range' s n).foldl (fun a i => a.set (i - 2) (f i)) a)[k]? =
      if s - 2 ≤ k ∧ k < s - 2 + n ∧ k < a.length then some (f (k + 2)) else a[k]? := by
  intro n
  induction n with
  | zero =>
    intro s a k _
    rw [if_neg (by omega)]
    rfl
  | succ n ih =>
    intro s a k hs
    rw [List.range'_succ, List.foldl_cons, ih (s + 1) _ k (by omega)]
    rw [List.length_set, List.getElem?_set]
    by_cases h1 : s - 2 = k
    · subst h1
      have e : s - 2 + 2 = s := by omega
      rw [if_neg (by omega), if_pos rfl]
      by_cases h2 : s - 2 < a.length
      · rw [if_pos h2, if_pos (by omega), e]
      · rw [if_neg h2, if_neg (by omega)]
        exact (List.getElem?_eq_none (by omega)).symm
    · rw [if_neg h1]
      by_cases h2 : s + 1 - 2 ≤ k ∧ k < s + 1 - 2 + n ∧ k < a.length
      · rw [if_pos h2, if_pos (by omega)]
      · rw [if_neg h2, if_neg (by omega)]

/-- The filling loop keeps the size of the array. -/
theorem fill_length (f : Nat → CPtr) : ∀ (n s : Nat) (a : List CPtr),
    ((List.range' s n).foldl (fun a i => a.set (i - 2) (f i)) a).length = a.length := by
  intro n
  induction n with
  | zero => intro s a; rfl
  | succ n ih =>
    intro s a
    rw [List.range'_succ, List.foldl_cons, ih, List.length_set]

theorem argv_at_lt (argv : List String) (i : Nat) (hi : i < argv.length) :
    argv_at argv i = .str (argv.get ⟨i, hi⟩) := by
  simp [argv_at, List.getElem?_eq_getElem hi]

/-- Every slot of `cmdargsptr`, by index. -/
theorem cmdargs_getElem? (argv : List String) (h : 3 ≤ argv.length) (k : Nat) :
    (cmdargs argv)[k]? =
      if k < argv.length - 2 then some (argv_at argv (k + 2))
      else if k = argv.length - 2 then some .null else none := by
  unfold cmdargs
  rw [List.getElem?_set]
  by_cases h3 : argv.length > 3
  · simp only [h3, if_true]
    rw [fill_getElem? _ _ 3 _ _ (by omega), fill_length]
    simp only [List.length_set, List.length_replicate, List.getElem?_set,
      List.getElem?_replicate]
    by_cases hk : k = 0
    · subst hk
      rw [if_neg (by omega), if_neg (by omega), if_pos rfl, if_pos (by omega), if_pos (by omega)]
    · split_ifs <;> first | rfl | omega
  · simp only [h3, if_false, List.length_set, List.length_replicate, List.getElem?_set,
      List.getElem?_replicate]
    by_cases hk : k = 0
    · subst hk
      rw [if_neg (by omega), if_pos rfl, if_pos (by omega), if_pos (by omega)]
    · split_ifs <;> first | rfl | omega

/-- The array `cmdargsptr` as a whole. -/
theorem cmdargs_eq (argv : List String) (h : 3 ≤ argv.length) :
    cmdargs argv = (argv.drop 2).map CPtr.str ++ [CPtr.null] := by
  apply List.ext_getElem?
  intro k
  rw [cmdargs_getElem? argv h k]
  by_cases h1 : k < argv.length - 2
  · rw [if_pos h1, List.getElem?_append_left (by simp; omega), List.getElem?_map,
      List.getElem?_drop, argv_at_lt argv (k + 2) (by omega)]
    have e : argv[2 + k]? = some (argv.get ⟨k + 2, by omega⟩) := by
      rw [List.getElem?_eq_getElem (by omega)]
      simp [Nat.add_comm]
    rw [e]; rfl
  · rw [if_neg h1, List.getElem?_append_right (by simp; omega)]
    simp only [List.length_map, List.length_drop]
    by_cases h2 : k = argv.length - 2
    · rw [if_pos h2, h2]; simp
    · rw [if_neg h2]
      have : k - (argv.length - 2) ≠ 0 := by omega
      cases hm : k - (argv.length - 2) with
      | zero => exact absurd hm this
      | succ m => rfl

/-- What `main` does once `console_init` has returned. -/
theorem main_after_console_init (P : Platform) (W : World) (argv envp : List String)
    (s s1 : Proc) (h : 3 ≤ argv.length) (hc : console_init P W argv[1]? s = .ret () s1) :
    main P W argv envp s =
      match sys_execve P W (argv_at argv 2) (cmdargs argv) envp (setsid (set_sane_term P s1)) with
      | (none, s2) => .exec s2
      | (some exc, s2) =>
        .ret exc (if exc ≠ 0 then
          s2.emit (.write 2 ("exec error: " ++ P.strerror exc ++ "\n")) else s2) := by
  unfold main
  rw [if_neg (by omega), hc]

/-- C2: for every `argv` with at least three entries, once `console_init`
has returned `main` calls `execve` once, with path `argv[2]` and an argument
vector of `argc - 2` strings followed by one `NULL`, whose entry `k` is
`argv[k + 2]`: the command, then the trailing arguments in order. -/
theorem main_execve_argv (P : Platform) (W : World) (argv envp : List String) (s s1 : Proc)
    (h : 3 ≤ argv.length) (hc : console_init P W argv[1]? s = .ret () s1) :
    (cmdargs argv).length = argv.length - 2 + 1 ∧
    (∀ k, k < argv.length - 2 → (cmdargs argv)[k]? = Option.map CPtr.str argv[k + 2]?) ∧
    (cmdargs argv)[argv.length - 2]? = some CPtr.null ∧
    cmdargs argv = (argv.drop 2).map CPtr.str ++ [CPtr.null] ∧
    argv_at argv 2 = .str (argv.get ⟨2, h⟩) ∧
    ∃ st tail, (main P W argv envp s).state = some st ∧
      st.trace = (setsid (set_sane_term P s1)).trace ++
        Effect.execve (argv_at argv 2) (cmdargs argv) envp :: tail ∧
      tail.any Effect.is_execve = false := by
  refine ⟨?_, ?_, ?_, cmdargs_eq argv h, argv_at_lt argv 2 h, ?_⟩
  · rw [cmdargs_eq argv h]; simp
  · intro k hk
    rw [cmdargs_getElem? argv h k, if_pos hk, argv_at_lt argv (k + 2) (by omega),
      List.getElem?_eq_getElem (by omega)]
    rfl
  · rw [cmdargs_getElem? argv h, if_neg (by omega), if_pos rfl]
  · rw [main_after_console_init P W argv envp s s1 h hc, argv_at_lt argv 2 h]
    unfold sys_execve
    simp only
    cases W.exec_err (argv.get ⟨2, h⟩) with
    | none => exact ⟨_, [], rfl, by simp [Proc.emit], rfl⟩
    | some e =>
      refine ⟨_, [.write 2 ("exec error: " ++ P.strerror (-1) ++ "\n")], rfl, ?_, rfl⟩
      simp [Proc.emit]

/-- The invocation `ttyopen /dev/tty1 /bin/echo hello` passes the vector
`/bin/echo`, `hello`, `NULL` to `execve`. -/
theorem main_execve_argv_witness :
    3 ≤ ["ttyopen", "/dev/tty1", "/bin/echo", "hello"].length ∧
    cmdargs ["ttyopen", "/dev/tty1", "/bin/echo", "hello"]
      = [CPtr.str "/bin/echo", CPtr.str "hello", CPtr.null] ∧
    argv_at ["ttyopen", "/dev/tty1", "/bin/echo", "hello"] 2 = CPtr.str "/bin/echo" :=
  ⟨by decide,
   (main_execve_argv linux_glibc demo_world ["ttyopen", "/dev/tty1", "/bin/echo", "hello"] []
      demo_proc
      ((console_init linux_glibc demo_world (some "/dev/tty1") demo_proc).returned.getD demo_proc)
      (by decide) rfl).2.2.2.1,
   (main_execve_argv linux_glibc demo_world ["ttyopen", "/dev/tty1", "/bin/echo", "hello"] []
      demo_proc
      ((console_init linux_glibc demo_world (some "/dev/tty1") demo_proc).returned.getD demo_proc)
      (by decide) rfl).2.2.2.2.1⟩

/-! ### The descriptor table -/

theorem first_free_spec (fds : Nat → Option String) : ∀ (n i f : Nat),
    first_free fds i n = some f →
      i ≤ f ∧ f < i + n ∧ fds f = none ∧ ∀ j, i ≤ j → j < f → fds j ≠ none := by
  intro n
  induction n with
  | zero => intro i f h; simp [first_free] at h
  | succ n ih =>
    intro i f h
    unfold first_free at h
    by_cases hi : (fds i).isNone = true
    · rw [if_pos hi] at h
      cases h
      refine ⟨le_refl _, by omega, by simpa using hi, ?_⟩
      intro j h1 h2; omega
    · rw [if_neg hi] at h
      obtain ⟨h1, h2, h3, h4⟩ := ih (i + 1) f h
      refine ⟨by omega, by omega, h3, ?_⟩
      intro j hj1 hj2
      by_cases e : j = i
      · subst e
        intro hn; rw [hn] at hi; simp at hi
      · exact h4 j (by omega) hj2

theorem fd_get_nat (s : Proc) (n : Nat) : s.fd_get (n : Int) = s.fds n := by
  simp [Proc.fd_get]

theorem unsigned_nat (n : Nat) (h : n < 2147483648) : unsigned (n : Int) = n := by
  unfold unsigned
  apply Int.emod_eq_of_lt <;> omega

theorem fds_set_same (fds : Nat → Option String) (i : Nat) (v : Option String) :
    fds_set fds i v i = v := by
  simp [fds_set]

theorem fds_set_other (fds : Nat → Option String) (i j : Nat) (v : Option String) (h : j ≠ i) :
    fds_set fds i v j = fds j := by
  simp [fds_set, h]

section frame
variable (P : Platform) (W : World)

@[simp]
theorem emit_env (s : Proc) (e : Effect) : (s.emit e).env = s.env := rfl
@[simp]
theorem emit_fds (s : Proc) (e : Effect) : (s.emit e).fds = s.fds := rfl
@[simp]
theorem emit_nofile (s : Proc) (e : Effect) : (s.emit e).nofile = s.nofile := rfl
@[simp]
theorem emit_trace (s : Proc) (e : Effect) : (s.emit e).trace = s.trace ++ [e] := rfl

@[simp]
theorem alloc_env (s : Proc) (d : String) : (s.alloc P d).2.env = s.env := by
  unfold Proc.alloc; cases s.lowest_free <;> rfl
@[simp]
theorem alloc_nofile (s : Proc) (d : String) : (s.alloc P d).2.nofile = s.nofile := by
  unfold Proc.alloc; cases s.lowest_free <;> rfl
@[simp]
theorem alloc_trace (s : Proc) (d : String) : (s.alloc P d).2.trace = s.trace := by
  unfold Proc.alloc; cases s.lowest_free <;> rfl

@[simp]
theorem sys_open_env (p : String) (f : OFlag) (s : Proc) :
    (sys_open P W p f s).2.env = s.env := by
  unfold sys_open; cases W.open_err p f <;> simp
@[simp]
theorem sys_open_nofile (p : String) (f : OFlag) (s : Proc) :
    (sys_open P W p f s).2.nofile = s.nofile := by
  unfold sys_open; cases W.open_err p f <;> simp
theorem sys_open_trace (p : String) (f : OFlag) (s : Proc) :
    (sys_open P W p f s).2.trace = s.trace ++ [.sys_open p f (sys_open P W p f s).1] := by
  unfold sys_open; cases W.open_err p f <;> simp

@[simp]
theorem sys_dup_env (fd : Int) (s : Proc) : (sys_dup P fd s).2.env = s.env := by
  unfold sys_dup; cases s.fd_get fd <;> simp
@[simp]
theorem sys_dup_nofile (fd : Int) (s : Proc) : (sys_dup P fd s).2.nofile = s.nofile := by
  unfold sys_dup; cases s.fd_get fd <;> simp
theorem sys_dup_trace (fd : Int) (s : Proc) :
    (sys_dup P fd s).2.trace = s.trace ++ [.sys_dup fd (sys_dup P fd s).1] := by
  unfold sys_dup; cases s.fd_get fd <;> simp

@[simp]
theorem sys_dup2_env (fd : Int) (n : Nat) (s : Proc) :
    (sys_dup2 P fd n s).2.env = s.env := by
  unfold sys_dup2; cases s.fd_get fd <;> simp
  split_ifs <;> rfl
@[simp]
theorem sys_dup2_nofile (fd : Int) (n : Nat) (s : Proc) :
    (sys_dup2 P fd n s).2.nofile = s.nofile := by
  unfold sys_dup2; cases s.fd_get fd <;> simp
  split_ifs <;> rfl
theorem sys_dup2_trace (fd : Int) (n : Nat) (s : Proc) :
    (sys_dup2 P fd n s).2.trace = s.trace ++ [.sys_dup2 fd n (sys_dup2 P fd n s).1] := by
  unfold sys_dup2; cases s.fd_get fd <;> simp
  split_ifs <;> rfl

@[simp]
theorem sys_close_env (fd : Int) (s : Proc) : (sys_close P fd s).2.env = s.env := by
  unfold sys_close; cases s.fd_get fd <;> simp

@[simp]
theorem setsid_env (s : Proc) : (setsid s).env = s.env := rfl
@[simp]
theorem setsid_fds (s : Proc) : (setsid s).fds = s.fds := rfl
@[simp]
theorem setsid_nofile (s : Proc) : (setsid s).nofile = s.nofile := rfl
@[simp]
theorem setsid_trace (s : Proc) : (setsid s).trace = s.trace ++ [.setsid] := rfl

/-- An allocation either fails or takes the lowest free slot. -/
theorem alloc_cases (s : Proc) (d : String) :
    (s.alloc P d).1 = -1 ∨
    ∃ f : Nat, f < s.nofile ∧ f < 2147483648 ∧ s.fds f = none ∧ (∀ j, j < f → s.fds j ≠ none) ∧
      (s.alloc P d).1 = (f : Int) ∧ (s.alloc P d).2.fds = fds_set s.fds f (some d) := by
  unfold Proc.alloc Proc.lowest_free
  cases hf : first_free s.fds 0 (min s.nofile 2147483648) with
  | none => left; rfl
  | some f =>
    right
    obtain ⟨_, h2, h3, h4⟩ := first_free_spec s.fds _ 0 f hf
    exact ⟨f, by omega, by omega, h3, fun j hj => h4 j (Nat.zero_le _) hj, rfl, rfl⟩

theorem sys_dup2_ok (fd : Int) (n : Nat) (s : Proc) (d : String) (h : s.fd_get fd = some d)
    (hn : n < s.nofile) :
    (sys_dup2 P fd n s).1 = (n : Int) ∧ (sys_dup2 P fd n s).2.fds = fds_set s.fds n (some d) := by
  unfold sys_dup2
  rw [h]
  simp only [if_neg (not_le.mpr hn)]
  simp

theorem sys_close_ok (fd : Int) (s : Proc) (d : String) (h : s.fd_get fd = some d) :
    (sys_close P fd s).2.fds = fds_set s.fds fd.toNat none := by
  unfold sys_close; rw [h]; rfl

/-- One iteration of the loop of `sanitize_stdio` on a held descriptor:
`dup` fails, or returns a higher descriptor on the same device. -/
theorem sys_dup_cases (s : Proc) (fd : Nat) (d : String)
    (hfd : s.fds fd = some d) (hlow : ∀ j, j < fd → s.fds j ≠ none) :
    (sys_dup P fd s).1 = -1 ∨
    ∃ f : Nat, fd < f ∧ f < s.nofile ∧ f < 2147483648 ∧ (sys_dup P fd s).1 = (f : Int) ∧
      (sys_dup P fd s).2.fds f = some d ∧ (∀ j, j < f → (sys_dup P fd s).2.fds j ≠ none) := by
  have e1 : (sys_dup P fd s).1 = (s.alloc P d).1 := by
    unfold sys_dup; rw [fd_get_nat, hfd]
  have e2 : (sys_dup P fd s).2.fds = (s.alloc P d).2.fds := by
    unfold sys_dup; rw [fd_get_nat, hfd]; rfl
  rcases alloc_cases P s d with h | ⟨f, h1, hb, h2, h3, h4, h5⟩
  · left; rw [e1, h]
  · right
    have hlt : fd < f := by
      by_contra hc
      rcases Nat.lt_or_eq_of_le (show f ≤ fd by omega) with hl | he
      · exact hlow f hl h2
      · rw [he, hfd] at h2; cases h2
    refine ⟨f, hlt, h1, hb, by rw [e1, h4], by rw [e2, h5, fds_set_same], ?_⟩
    intro j hj
    rw [e2, h5, fds_set_other _ _ _ _ (by omega)]
    exact h3 j hj

theorem sys_open_fail (p : String) (f : OFlag) (s : Proc) (e : Int)
    (h : W.open_err p f = some e) :
    sys_open P W p f s = (-1, ({ s with errno := e } : Proc).emit (.sys_open p f (-1))) := by
  unfold sys_open; rw [h]

/-- A successful `open` returns the lowest free descriptor, which then
refers to the path. -/
theorem sys_open_pos (p : String) (f : OFlag) (s : Proc) (h : 0 ≤ (sys_open P W p f s).1) :
    ∃ n : Nat, (sys_open P W p f s).1 = (n : Int) ∧ n < s.nofile ∧ n < 2147483648 ∧
      (sys_open P W p f s).2.fds = fds_set s.fds n (some p) ∧
      (∀ j, j < n → s.fds j ≠ none) := by
  have e1 : W.open_err p f = none → (sys_open P W p f s).1 = (s.alloc P p).1 := by
    intro ho; unfold sys_open; rw [ho]
  have e2 : W.open_err p f = none → (sys_open P W p f s).2.fds = (s.alloc P p).2.fds := by
    intro ho; unfold sys_open; rw [ho]; rfl
  cases ho : W.open_err p f with
  | some e => rw [sys_open_fail P W p f s e ho] at h; simp at h
  | none =>
    rcases alloc_cases P s p with ha | ⟨n, h1, hb, _, h3, h4, h5⟩
    · rw [e1 ho, ha] at h; simp at h
    · exact ⟨n, by rw [e1 ho, h4], h1, hb, by rw [e2 ho, h5], h3⟩

theorem sys_open_neg_fds (p : String) (f : OFlag) (s : Proc) (h : (sys_open P W p f s).1 < 0) :
    (sys_open P W p f s).2.fds = s.fds := by
  unfold sys_open at h ⊢
  cases ho : W.open_err p f with
  | some e => rfl
  | none =>
    rw [ho] at h
    simp only [Proc.alloc] at h ⊢
    cases hf : s.lowest_free with
    | none => rfl
    | some n =>
      rw [hf] at h
      simp only at h
      omega

theorem sys_open_neg_ret (p : String) (f : OFlag) (s : Proc) (h : (sys_open P W p f s).1 < 0) :
    (sys_open P W p f s).1 = -1 := by
  unfold sys_open at h ⊢
  cases ho : W.open_err p f with
  | some e => rfl
  | none =>
    rw [ho] at h
    simp only [Proc.alloc] at h ⊢
    cases hf : s.lowest_free with
    | none => rfl
    | some n =>
      rw [hf] at h
      simp only at h
      omega

/-! ### The fallback of `sanitize_stdio` -/

theorem sanitize_loop_stop (n : Nat) (fd : Int) (s : Proc) (h : ¬ unsigned fd < 2) :
    sanitize_loop P n fd s = some (fd, s) := by
  cases n <;> simp [sanitize_loop, h]

/-- The loop of `sanitize_stdio`, started on a descriptor returned by `open`,
ends within two iterations; unless one of its `dup` calls failed it ends on a
descriptor that is at least 2 and refers to the device that was opened. -/
theorem sanitize_loop_good (s : Proc) (fd : Nat) (d : String)
    (hb : fd < 2147483648) (hfdn : fd < s.nofile)
    (hfd : s.fds fd = some d) (hlow : ∀ j, j < fd → s.fds j ≠ none) :
    ∃ (g : Int) (s1 : Proc) (suf : List Effect),
      sanitize_loop P 2 (fd : Int) s = some (g, s1) ∧ s1.trace = s.trace ++ suf ∧
      (suf.any Effect.is_failed_dup = false →
        ∃ n : Nat, g = (n : Int) ∧ 2 ≤ n ∧ n < s1.nofile ∧ s1.fds n = some d) := by
  have hm1 : ¬ unsigned (-1) < 2 := by decide
  by_cases h2 : 2 ≤ fd
  · refine ⟨fd, s, [], ?_, by simp, fun _ => ⟨fd, rfl, h2, hfdn, hfd⟩⟩
    exact sanitize_loop_stop P 2 _ s (by rw [unsigned_nat fd hb]; omega)
  · have hstep1 : sanitize_loop P 2 (fd : Int) s
        = sanitize_loop P 1 (sys_dup P fd s).1 (sys_dup P fd s).2 := by
      conv_lhs => unfold sanitize_loop
      rw [unsigned_nat fd hb, if_pos (by omega)]
    have ht1 := sys_dup_trace P (fd : Int) s
    rw [hstep1]
    rcases sys_dup_cases P s fd d hfd hlow with h | ⟨f1, h1a, h1b, h1bb, h1c, h1d, h1e⟩
    · refine ⟨-1, (sys_dup P fd s).2, [.sys_dup fd (-1)], ?_, ?_, ?_⟩
      · rw [h]; exact sanitize_loop_stop P 1 _ _ hm1
      · rw [ht1, h]
      · intro hc; simp [Effect.is_failed_dup] at hc
    · rw [h1c] at ht1 ⊢
      by_cases h3 : 2 ≤ f1
      · refine ⟨f1, (sys_dup P fd s).2, [.sys_dup fd f1], ?_, ht1,
          fun _ => ⟨f1, rfl, h3, by simpa using h1b, h1d⟩⟩
        exact sanitize_loop_stop P 1 _ _ (by rw [unsigned_nat f1 h1bb]; omega)
      · have hstep2 : sanitize_loop P 1 (f1 : Int) (sys_dup P fd s).2
            = sanitize_loop P 0 (sys_dup P f1 (sys_dup P fd s).2).1
                (sys_dup P f1 (sys_dup P fd s).2).2 := by
          conv_lhs => unfold sanitize_loop
          rw [unsigned_nat f1 h1bb, if_pos (by omega)]
        have ht2 := sys_dup_trace P (f1 : Int) (sys_dup P fd s).2
        rw [hstep2]
        rcases sys_dup_cases P (sys_dup P fd s).2 f1 d h1d h1e with
          h | ⟨f2, h2a, h2b, h2bb, h2c, h2d, _⟩
        · refine ⟨-1, (sys_dup P f1 (sys_dup P fd s).2).2,
            [.sys_dup fd f1, .sys_dup f1 (-1)], ?_, ?_, ?_⟩
          · rw [h]; exact sanitize_loop_stop P 0 _ _ hm1
          · rw [ht2, ht1, h]; simp
          · intro hc; simp [Effect.is_failed_dup] at hc
        · refine ⟨f2, (sys_dup P f1 (sys_dup P fd s).2).2,
            [.sys_dup fd f1, .sys_dup f1 f2], ?_, ?_,
            fun _ => ⟨f2, rfl, by omega, by simpa using h2b, h2d⟩⟩
          · rw [h2c]
            exact sanitize_loop_stop P 0 _ _ (by rw [unsigned_nat f2 h2bb]; omega)
          · rw [ht2, ht1, h2c]; simp

/-- After the loop, `sanitize_stdio` returns; unless a `dup` call failed,
its three `dup2` calls have put the device on descriptors 0, 1 and 2. -/
theorem sanitize_tail_good (s : Proc) (fd : Nat) (d : String)
    (hb : fd < 2147483648) (hfdn : fd < s.nofile)
    (hfd : s.fds fd = some d) (hlow : ∀ j, j < fd → s.fds j ≠ none) :
    ∃ (s1 : Proc) (suf : List Effect),
      sanitize_tail P (fd : Int) s = .ret () s1 ∧ s1.trace = s.trace ++ suf ∧
      (suf.any Effect.is_failed_dup = false →
        s1.fds 0 = some d ∧ s1.fds 1 = some d ∧ s1.fds 2 = some d) := by
  obtain ⟨g, s1, suf, hl, ht, hgood⟩ := sanitize_loop_good P s fd d hb hfdn hfd hlow
  unfold sanitize_tail
  rw [hl]
  simp only
  refine ⟨_, suf ++ [.setsid, .sys_dup2 g 0 (sys_dup2 P g 0 (setsid s1)).1,
    .sys_dup2 g 1 (sys_dup2 P g 1 (sys_dup2 P g 0 (setsid s1)).2).1,
    .sys_dup2 g 2 (sys_dup2 P g 2 (sys_dup2 P g 1 (sys_dup2 P g 0 (setsid s1)).2).2).1],
    rfl, ?_, ?_⟩
  · rw [sys_dup2_trace, sys_dup2_trace, sys_dup2_trace, setsid_trace, ht]
    simp
  · intro hc
    have hs : suf.any Effect.is_failed_dup = false := by
      simp only [List.any_append, Bool.or_eq_false_iff] at hc
      exact hc.1
    obtain ⟨n, hg, hn2, hnn, hnd⟩ := hgood hs
    subst hg
    have e0 := sys_dup2_ok P (n : Int) 0 (setsid s1) d (by rw [fd_get_nat]; exact hnd)
      (by simp; omega)
    have g0 : (sys_dup2 P (n : Int) 0 (setsid s1)).2.fd_get (n : Int) = some d := by
      rw [fd_get_nat, e0.2, fds_set_other _ _ _ _ (by omega)]; exact hnd
    have e1 := sys_dup2_ok P (n : Int) 1 _ d g0 (by simp; omega)
    have g1 : (sys_dup2 P (n : Int) 1 (sys_dup2 P (n : Int) 0 (setsid s1)).2).2.fd_get (n : Int)
        = some d := by
      rw [fd_get_nat, e1.2, fds_set_other _ _ _ _ (by omega), e0.2,
        fds_set_other _ _ _ _ (by omega)]; exact hnd
    have e2 := sys_dup2_ok P (n : Int) 2 _ d g1 (by simp; omega)
    refine ⟨?_, ?_, ?_⟩
    · rw [e2.2, fds_set_other _ _ _ _ (by omega), e1.2, fds_set_other _ _ _ _ (by omega), e0.2,
        fds_set_same]
    · rw [e2.2, fds_set_other _ _ _ _ (by omega), e1.2, fds_set_same]
    · rw [e2.2, fds_set_same]

/-- The same, started from the `open` that obtained the descriptor. -/
theorem open_then_tail (p : String) (f : OFlag) (s : Proc)
    (h : ¬ (sys_open P W p f s).1 < 0) :
    ∃ (s1 : Proc) (suf : List Effect),
      sanitize_tail P (sys_open P W p f s).1 (sys_open P W p f s).2 = .ret () s1 ∧
      s1.trace = s.trace ++ .sys_open p f (sys_open P W p f s).1 :: suf ∧
      (suf.any Effect.is_failed_dup = false →
        s1.fds 0 = some p ∧ s1.fds 1 = some p ∧ s1.fds 2 = some p) := by
  obtain ⟨n, h1, h2, hb, h3, h4⟩ := sys_open_pos P W p f s (by omega)
  obtain ⟨s1, suf, ha, hb2, hc⟩ := sanitize_tail_good P (sys_open P W p f s).2 n p hb
    (by simpa using h2) (by rw [h3, fds_set_same])
    (by
      intro j hj
      rw [h3, fds_set_other _ _ _ _ (by omega)]
      exact h4 j hj)
  refine ⟨s1, suf, by rw [h1]; exact ha, ?_, hc⟩
  rw [hb2, sys_open_trace]
  simp

/-- What `sanitize_stdio` does: it exits when neither the null device nor
the root directory can be opened, and returns otherwise; unless one of its
`dup` calls failed, descriptors 0, 1 and 2 then refer to the device opened. -/
theorem sanitize_stdio_good (s : Proc) :
    (∃ (s1 : Proc) (suf : List Effect) (d : String),
      sanitize_stdio P W s = .ret () s1 ∧ s1.trace = s.trace ++ suf ∧
      (d = P.PATH_DEVNULL ∨ d = "/") ∧
      (suf.any Effect.is_failed_dup = false →
        s1.fds 0 = some d ∧ s1.fds 1 = some d ∧ s1.fds 2 = some d)) ∨
    (∃ c s1, sanitize_stdio P W s = .exit c s1) := by
  unfold sanitize_stdio
  by_cases h1 : (sys_open P W P.PATH_DEVNULL .rdwr s).1 < 0
  · simp only [if_pos h1]
    by_cases h2 : (sys_open P W "/" .rdonly (sys_open P W P.PATH_DEVNULL .rdwr s).2).1 < 0
    · right
      simp only [if_pos h2, printerr]
      exact ⟨_, _, rfl⟩
    · left
      simp only [if_neg h2]
      obtain ⟨s1, suf, ha, hb, hc⟩ := open_then_tail P W "/" .rdonly _ h2
      refine ⟨s1, [.sys_open P.PATH_DEVNULL .rdwr (sys_open P W P.PATH_DEVNULL .rdwr s).1] ++
        (.sys_open "/" .rdonly
          (sys_open P W "/" .rdonly (sys_open P W P.PATH_DEVNULL .rdwr s).2).1 :: suf),
        "/", ha, ?_, Or.inr rfl, ?_⟩
      · rw [hb, sys_open_trace, List.append_assoc]
      · intro hany
        apply hc
        simp only [List.singleton_append, List.any_cons, Bool.or_eq_false_iff] at hany
        exact hany.2.2
  · left
    simp only [if_neg h1]
    obtain ⟨s1, suf, ha, hb, hc⟩ := open_then_tail P W P.PATH_DEVNULL .rdwr s h1
    refine ⟨s1, .sys_open P.PATH_DEVNULL .rdwr (sys_open P W P.PATH_DEVNULL .rdwr s).1 :: suf,
      P.PATH_DEVNULL, ha, hb, Or.inl rfl, ?_⟩
    intro hany
    apply hc
    simp only [List.any_cons, Bool.or_eq_false_iff] at hany
    exact hany.2


/-! ### The attach step of `console_init` -/

/-- When the terminal opens on a descriptor above 2, the attach step returns
with descriptors 0, 1 and 2 on the terminal and the original closed. -/
theorem console_attach_opened (p : String) (s : Proc)
    (h : 2 < (sys_open P W p .rdwr_nonblock_noctty s).1) :
    ∃ s1, console_attach P W (some p) s = .ret () s1 ∧
      s1.fds 0 = some p ∧ s1.fds 1 = some p ∧ s1.fds 2 = some p ∧
      s1.fds (sys_open P W p .rdwr_nonblock_noctty s).1.toNat = none := by
  obtain ⟨n, h1, h2, _, h3, _⟩ := sys_open_pos P W p .rdwr_nonblock_noctty s (by omega)
  have hn2 : 2 < n := by rw [h1] at h; exact_mod_cast h
  have hg : (sys_open P W p .rdwr_nonblock_noctty s).2.fd_get (n : Int) = some p := by
    rw [fd_get_nat, h3, fds_set_same]
  have e0 := sys_dup2_ok P (n : Int) 0 _ p hg (by simp; omega)
  have g0 : (sys_dup2 P (n : Int) 0 (sys_open P W p .rdwr_nonblock_noctty s).2).2.fd_get (n : Int)
      = some p := by
    rw [fd_get_nat, e0.2, fds_set_other _ _ _ _ (by omega), h3, fds_set_same]
  have e1 := sys_dup2_ok P (n : Int) 1 _ p g0 (by simp; omega)
  have g1 : (sys_dup2 P (n : Int) 1
      (sys_dup2 P (n : Int) 0 (sys_open P W p .rdwr_nonblock_noctty s).2).2).2.fd_get (n : Int)
      = some p := by
    rw [fd_get_nat, e1.2, fds_set_other _ _ _ _ (by omega), e0.2,
      fds_set_other _ _ _ _ (by omega), h3, fds_set_same]
  have e2 := sys_dup2_ok P (n : Int) 2 _ p g1 (by simp; omega)
  have g2 : (sys_dup2 P (n : Int) 2 (sys_dup2 P (n : Int) 1
      (sys_dup2 P (n : Int) 0 (sys_open P W p .rdwr_nonblock_noctty s).2).2).2).2.fd_get (n : Int)
      = some p := by
    rw [fd_get_nat, e2.2, fds_set_other _ _ _ _ (by omega), e1.2,
      fds_set_other _ _ _ _ (by omega), e0.2, fds_set_other _ _ _ _ (by omega), h3, fds_set_same]
  have e3 := sys_close_ok P (n : Int) _ p g2
  unfold console_attach
  simp only [h1, ge_iff_le, Int.natCast_nonneg, if_true, Int.toNat_ofNat]
  rw [if_neg (by rw [e2.1]; simp)]
  refine ⟨_, rfl, ?_, ?_, ?_, ?_⟩
  · rw [e3, Int.toNat_ofNat, fds_set_other _ _ _ _ (by omega), e2.2,
      fds_set_other _ _ _ _ (by omega), e1.2, fds_set_other _ _ _ _ (by omega), e0.2,
      fds_set_same]
  · rw [e3, Int.toNat_ofNat, fds_set_other _ _ _ _ (by omega), e2.2,
      fds_set_other _ _ _ _ (by omega), e1.2, fds_set_same]
  · rw [e3, Int.toNat_ofNat, fds_set_other _ _ _ _ (by omega), e2.2, fds_set_same]
  · rw [e3, Int.toNat_ofNat, fds_set_same]

/-- When the terminal cannot be opened, the attach step returns at once. -/
theorem console_attach_failed (p : String) (s : Proc)
    (h : (sys_open P W p .rdwr_nonblock_noctty s).1 < 0) :
    console_attach P W (some p) s = .ret () (sys_open P W p .rdwr_nonblock_noctty s).2 := by
  unfold console_attach
  simp only [ge_iff_le, if_neg (not_le.mpr h)]

@[simp]
theorem console_term_fds (s : Proc) : (console_term s).fds = s.fds := by
  unfold console_term setenv
  simp only [Proc.emit]
  split_ifs <;> rfl

theorem console_term_trace (s : Proc) :
    (console_term s).trace =
      s.trace ++ (if (getenv s "TERM").isNone then [.setenv "TERM" "linux" true] else []) := by
  unfold console_term setenv
  simp only [Proc.emit]
  split_ifs <;> simp

/-! ### The iteration bound of the loop is never reached -/

/-- The model of `sanitize_stdio` always returns or exits. -/
theorem sanitize_stdio_not_stuck (s : Proc) : sanitize_stdio P W s ≠ .stuck := by
  rcases sanitize_stdio_good P W s with ⟨s1, _, _, h, _⟩ | ⟨c, s1, h⟩ <;> rw [h] <;> simp

/-- The model of `console_init` always returns or exits. -/
theorem console_init_not_stuck (tty : Option String) (s : Proc) :
    console_init P W tty s ≠ .stuck := by
  have ha : console_attach P W (console_path P tty s) s ≠ .stuck := by
    unfold console_attach
    cases console_path P tty s with
    | none => exact sanitize_stdio_not_stuck P W s
    | some p =>
      simp only [printerr]
      split_ifs <;> simp
  unfold console_init
  cases hc : console_attach P W (console_path P tty s) s with
  | ret u s2 => simp
  | exit c s2 => simp
  | exec s2 => simp
  | stuck => exact absurd hc ha

/-! ### The environment is left alone by the attach step -/

theorem sanitize_loop_env : ∀ (n : Nat) (fd : Int) (s : Proc) (r : Int × Proc),
    sanitize_loop P n fd s = some r → r.2.env = s.env := by
  intro n
  induction n with
  | zero =>
    intro fd s r h
    unfold sanitize_loop at h
    split_ifs at h
    cases h; rfl
  | succ n ih =>
    intro fd s r h
    unfold sanitize_loop at h
    split_ifs at h
    · have := ih _ _ _ h
      simpa using this
    · cases h; rfl

theorem sanitize_tail_env (fd : Int) (s s1 : Proc) (h : sanitize_tail P fd s = .ret () s1) :
    s1.env = s.env := by
  unfold sanitize_tail at h
  cases hl : sanitize_loop P 2 fd s with
  | none => rw [hl] at h; cases h
  | some r =>
    rw [hl] at h
    obtain ⟨fd1, s2⟩ := r
    simp only [Res.ret.injEq, true_and] at h
    rw [← h]
    simpa using sanitize_loop_env P _ _ _ _ hl

theorem sanitize_stdio_env (s s1 : Proc) (h : sanitize_stdio P W s = .ret () s1) :
    s1.env = s.env := by
  unfold sanitize_stdio at h
  simp only [printerr] at h
  split_ifs at h
  · simpa using sanitize_tail_env P _ _ _ h
  · simpa using sanitize_tail_env P _ _ _ h

theorem console_attach_env (path : Option String) (s s1 : Proc)
    (h : console_attach P W path s = .ret () s1) : s1.env = s.env := by
  unfold console_attach at h
  cases path with
  | none => exact sanitize_stdio_env P W _ _ h
  | some p =>
    simp only [printerr] at h
    split_ifs at h
    · simp only [Res.ret.injEq, true_and] at h
      rw [← h]; simp
    · simp only [Res.ret.injEq, true_and] at h
      rw [← h]; simp

end frame

/-! ### Terminal type -/

theorem lookup_env_put (name value : String) (env : List (String × String)) :
    (env_put name value env).lookup name = some value := by
  induction env with
  | nil => simp [env_put, List.lookup]
  | cons a rest ih =>
    obtain ⟨n, v⟩ := a
    unfold env_put
    by_cases hn : n = name
    · simp [hn, List.lookup]
    · have : (name == n) = false := by simp [Ne.symm hn]
      simp [hn, List.lookup, this, ih]

theorem getenv_setenv (name value : String) (s : Proc) :
    getenv (setenv name value true s) name = some value := by
  simp [getenv, setenv, lookup_env_put]

/-- The value of `TERM` after lines 131-142 of `console_init`. -/
theorem getenv_console_term (s : Proc) :
    getenv (console_term s) "TERM" =
      match getenv s "TERM" with
      | none => some "linux"
      | some v => some v := by
  unfold console_term
  cases ht : getenv s "TERM" with
  | none => simp [getenv_setenv]
  | some v => simp [ht]

/-- Whenever `console_init` returns, `TERM` is `linux` if it was unset and
its prior value otherwise, whatever the capability query would answer: the
program never asks. -/
theorem console_init_term_value (P : Platform) (W : World) (tty : Option String) (s s1 : Proc)
    (h : console_init P W tty s = .ret () s1) :
    getenv s1 "TERM" =
      match getenv s "TERM" with
      | none => some "linux"
      | some v => some v := by
  unfold console_init at h
  cases ha : console_attach P W (console_path P tty s) s with
  | ret u s2 =>
    rw [ha] at h
    simp only [Res.ret.injEq, true_and] at h
    have he : getenv s2 "TERM" = getenv s "TERM" := by
      simp [getenv, console_attach_env P W _ _ _ ha]
    rw [← h, getenv_console_term, he]
  | exit c s2 => rw [ha] at h; cases h
  | exec s2 => rw [ha] at h; cases h
  | stuck => rw [ha] at h; cases h

/-- C5 at a failing input: on Linux, with a terminal on which the capability
query would fail, `console_init` leaves `TERM` at `linux` when it was unset
and when it was `linux`; it is not `vt102` in either case. -/
theorem term_not_vt102_when_query_fails :
    linux_glibc.linux = true ∧ demo_world.vt_ok = false ∧
    getenv demo_proc "TERM" = none ∧
    (console_init linux_glibc demo_world (some "/dev/tty1") demo_proc).returned.map
      (fun s => getenv s "TERM") = some (some "linux") ∧
    getenv term_linux_proc "TERM" = some "linux" ∧
    (console_init linux_glibc demo_world (some "/dev/tty1") term_linux_proc).returned.map
      (fun s => getenv s "TERM") = some (some "linux") := by
  decide

/-! ### Failure to open the terminal -/

/-- C4, as the code has it: for every resolved terminal path whose `open`
fails, `console_init` does not terminate the process and does not call
`sanitize_stdio`: it returns, the failed `open` is the only effect before the
`TERM` setting, and the descriptor table and the environment are at that
point exactly as at entry. -/
theorem console_init_open_failed (P : Platform) (W : World) (tty : Option String) (p : String)
    (s : Proc) (hp : console_path P tty s = some p)
    (hf : (sys_open P W p .rdwr_nonblock_noctty s).1 < 0) :
    console_init P W tty s =
      .ret () (console_term (sys_open P W p .rdwr_nonblock_noctty s).2) ∧
    (sys_open P W p .rdwr_nonblock_noctty s).2.fds = s.fds ∧
    (sys_open P W p .rdwr_nonblock_noctty s).2.env = s.env ∧
    (sys_open P W p .rdwr_nonblock_noctty s).2.trace =
      s.trace ++ [.sys_open p .rdwr_nonblock_noctty (-1)] := by
  refine ⟨?_, sys_open_neg_fds P W p _ s hf, by simp, ?_⟩
  · unfold console_init
    rw [hp, console_attach_failed P W p s hf]
  · rw [sys_open_trace, sys_open_neg_ret P W p _ s hf]

/-- With `/dev/nonexistent` as the terminal path, `console_init` returns
after the failed `open` and the `TERM` setting. -/
theorem console_init_open_failed_witness :
    console_path linux_glibc (some "/dev/nonexistent") bare_proc = some "/dev/nonexistent" ∧
    (sys_open linux_glibc demo_world "/dev/nonexistent" .rdwr_nonblock_noctty bare_proc).1 < 0 ∧
    console_init linux_glibc demo_world (some "/dev/nonexistent") bare_proc =
      .ret () (console_term
        (sys_open linux_glibc demo_world "/dev/nonexistent" .rdwr_nonblock_noctty bare_proc).2) ∧
    (sys_open linux_glibc demo_world "/dev/nonexistent" .rdwr_nonblock_noctty bare_proc).2.fds
      = bare_proc.fds :=
  ⟨rfl, by decide,
   (console_init_open_failed linux_glibc demo_world (some "/dev/nonexistent") "/dev/nonexistent"
      bare_proc rfl (by decide)).1,
   (console_init_open_failed linux_glibc demo_world (some "/dev/nonexistent") "/dev/nonexistent"
      bare_proc rfl (by decide)).2.1⟩

/-- C4 fails as stated: started with every descriptor closed and a terminal
path that cannot be opened, `console_init` returns without any `open` of the
null device and without any `dup` or `dup2`, and descriptors 0, 1 and 2 are
still closed, although `sanitize_stdio` run on the same state would have
opened them. -/
theorem open_failure_skips_sanitizer :
    demo_world.open_err "/dev/nonexistent" .rdwr_nonblock_noctty = some 2 ∧
    (console_init linux_glibc demo_world (some "/dev/nonexistent") bare_proc).returned.map
      (fun s => (s.trace.any (Effect.is_open_of "/dev/null"), s.trace.any Effect.is_dup,
        s.fds 0, s.fds 1, s.fds 2))
      = some (false, false, none, none, none) ∧
    (sanitize_stdio linux_glibc demo_world bare_proc).returned.map
      (fun s => (s.fds 0, s.fds 1, s.fds 2))
      = some (some "/dev/null", some "/dev/null", some "/dev/null") := by
  decide

/-! ### Descriptors 0, 1 and 2 after `console_init` -/

/-- C9, as the code has it: whenever `console_init` returns, then (a) if no
path was resolved, so that the sanitizer ran, and none of its `dup` calls
failed, descriptors 0, 1 and 2 are open on one fallback device; (b) if the
terminal opened on a descriptor above 2, they are open on the terminal;
(c) if the terminal could not be opened, the descriptor table is exactly as
at entry. -/
theorem console_init_stdio (P : Platform) (W : World) (tty : Option String) (s s1 : Proc)
    (h : console_init P W tty s = .ret () s1)
    (hdup : console_path P tty s = none →
      (s1.trace.drop s.trace.length).any Effect.is_failed_dup = false)
    (hfd : ∀ p, console_path P tty s = some p →
      (sys_open P W p .rdwr_nonblock_noctty s).1 < 0 ∨
      2 < (sys_open P W p .rdwr_nonblock_noctty s).1) :
    match console_path P tty s with
    | none => ∃ d, (d = P.PATH_DEVNULL ∨ d = "/") ∧
        s1.fds 0 = some d ∧ s1.fds 1 = some d ∧ s1.fds 2 = some d
    | some p =>
      if (sys_open P W p .rdwr_nonblock_noctty s).1 < 0 then s1.fds = s.fds
      else s1.fds 0 = some p ∧ s1.fds 1 = some p ∧ s1.fds 2 = some p := by
  unfold console_init at h
  cases hp : console_path P tty s with
  | none =>
    rw [hp] at h
    simp only
    have hs : console_attach P W none s = sanitize_stdio P W s := rfl
    rw [hs] at h
    rcases sanitize_stdio_good P W s with ⟨s2, suf, d, h1, ht, h2, h3⟩ | ⟨c, s2, h1⟩
    · rw [h1] at h
      simp only [Res.ret.injEq, true_and] at h
      have hd := hdup hp
      rw [← h, console_term_trace, ht, List.append_assoc, List.drop_left] at hd
      simp only [List.any_append, Bool.or_eq_false_iff] at hd
      refine ⟨d, h2, ?_⟩
      rw [← h, console_term_fds]
      exact h3 hd.1
    · rw [h1] at h; cases h
  | some p =>
    rw [hp] at h
    simp only
    rcases hfd p hp with hneg | hpos
    · rw [if_pos hneg]
      rw [console_attach_failed P W p s hneg] at h
      simp only [Res.ret.injEq, true_and] at h
      rw [← h, console_term_fds, sys_open_neg_fds P W p _ s hneg]
    · rw [if_neg (by omega)]
      obtain ⟨s2, h1, h2, h3, h4, _⟩ := console_attach_opened P W p s hpos
      rw [h1] at h
      simp only [Res.ret.injEq, true_and] at h
      rw [← h, console_term_fds]
      exact ⟨h2, h3, h4⟩

/-- The three paths at concrete inputs. Without a path, started with every
descriptor closed, and also started with 0, 1, 2 open and a single free
slot, descriptors 0, 1 and 2 end on the null device; with `/dev/tty1`
opened on descriptor 3 they end on `/dev/tty1`; with a path that cannot be
opened the table is left as it was. -/
theorem console_init_stdio_witness :
    (console_init linux_glibc demo_world none bare_proc = .ret () sanitized_proc ∧
      ∃ d, (d = "/dev/null" ∨ d = "/") ∧ sanitized_proc.fds 0 = some d ∧
        sanitized_proc.fds 1 = some d ∧ sanitized_proc.fds 2 = some d) ∧
    (console_init linux_glibc demo_world none tight_proc = .ret () tight_sanitized_proc ∧
      ∃ d, (d = "/dev/null" ∨ d = "/") ∧ tight_sanitized_proc.fds 0 = some d ∧
        tight_sanitized_proc.fds 1 = some d ∧ tight_sanitized_proc.fds 2 = some d) ∧
    (console_init linux_glibc demo_world (some "/dev/tty1") demo_proc = .ret () attached_proc ∧
      (sys_open linux_glibc demo_world "/dev/tty1" .rdwr_nonblock_noctty demo_proc).1 = 3 ∧
      attached_proc.fds 0 = some "/dev/tty1" ∧ attached_proc.fds 1 = some "/dev/tty1" ∧
      attached_proc.fds 2 = some "/dev/tty1") ∧
    (console_init linux_glibc demo_world (some "/dev/nonexistent") mixed_proc
        = .ret () unattached_proc ∧
      unattached_proc.fds = mixed_proc.fds) :=
  ⟨⟨rfl, console_init_stdio linux_glibc demo_world none bare_proc sanitized_proc rfl
      (fun _ => by decide)
      (fun p hp => by
        have hp2 : (none : Option String) = some p := hp
        cases hp2)⟩,
   ⟨rfl, console_init_stdio linux_glibc demo_world none tight_proc tight_sanitized_proc rfl
      (fun _ => by decide)
      (fun p hp => by
        have hp2 : (none : Option String) = some p := hp
        cases hp2)⟩,
   ⟨rfl, by decide,
    console_init_stdio linux_glibc demo_world (some "/dev/tty1") demo_proc attached_proc rfl
      (fun hp => by
        have hp2 : (some "/dev/tty1" : Option String) = none := hp
        cases hp2)
      (fun p hp => by
        have hp2 : (some "/dev/tty1" : Option String) = some p := hp
        cases hp2
        exact Or.inr (by decide))⟩,
   ⟨rfl,
    console_init_stdio linux_glibc demo_world (some "/dev/nonexistent") mixed_proc
      unattached_proc rfl
      (fun hp => by
        have hp2 : (some "/dev/nonexistent" : Option String) = none := hp
        cases hp2)
      (fun p hp => by
        have hp2 : (some "/dev/nonexistent" : Option String) = some p := hp
        cases hp2
        exact Or.inl (by decide))⟩⟩

/-- C9 fails as stated, on two paths. With descriptors 0 and 1 on different
files, descriptor 2 closed and a terminal path that cannot be opened,
`console_init` returns and leaves the three descriptors as they were. And
without a path, in a table of three slots with only descriptor 0 free, the
`dup` of `sanitize_stdio` fails and `console_init` returns with descriptor 0
on the null device and descriptors 1 and 2 on `/dev/pts/0`. -/
theorem mixed_descriptors_survive_open_failure :
    ((console_init linux_glibc demo_world (some "/dev/nonexistent") mixed_proc).returned.map
      (fun s => (s.fds 0, s.fds 1, s.fds 2))
      = some (some "/dev/pts/0", some "/tmp/log", none) ∧
    (console_init linux_glibc demo_world (some "/dev/nonexistent") mixed_proc).returned.map
      Proc.stdio_on_one_device = some false) ∧
    ((console_init linux_glibc demo_world none full_proc).returned.map
      (fun s => (s.fds 0, s.fds 1, s.fds 2, s.trace.any Effect.is_failed_dup))
      = some (some "/dev/null", some "/dev/pts/0", some "/dev/pts/0", true) ∧
    (console_init linux_glibc demo_world none full_proc).returned.map
      Proc.stdio_on_one_device = some false) := by
  decide

/-! ### Closing the original descriptor -/

/-- C10 at a failing input: started with descriptor 0 closed, `open` returns
0 for the terminal, and after `console_init` descriptor 0 is closed again
(by the unconditional `close(fd)`), while 1 and 2 are on the terminal. -/
theorem console_init_closes_slot_zero :
    (sys_open linux_glibc demo_world "/dev/tty1" .rdwr_nonblock_noctty no_stdin_proc).1 = 0 ∧
    (console_init linux_glibc demo_world (some "/dev/tty1") no_stdin_proc).returned.map
      (fun s => (s.fds 0, s.fds 1, s.fds 2))
      = some (none, some "/dev/tty1", some "/dev/tty1") ∧
    (console_init linux_glibc demo_world (some "/dev/tty1") no_stdin_proc).returned.map
      Proc.stdio_on_one_device = some false := by
  decide

/-! ### Failure of the process-image replacement -/

/-- Whenever `execve` fails, with whatever error, `main` prints the text of
error -1 and returns -1: the value tested and reported is the result of the
call, not `errno`. -/
theorem main_exec_failed (P : Platform) (W : World) (argv envp : List String) (s s1 : Proc)
    (cmd : String) (e : Int) (h : 3 ≤ argv.length)
    (hc : console_init P W argv[1]? s = .ret () s1) (hcmd : argv[2]? = some cmd)
    (he : W.exec_err cmd = some e) :
    main P W argv envp s =
      .ret (-1) (({ (setsid (set_sane_term P s1)).emit
          (.execve (.str cmd) (cmdargs argv) envp) with errno := e } : Proc).emit
        (.write 2 ("exec error: " ++ P.strerror (-1) ++ "\n"))) ∧
    (main P W argv envp s).exit_status = some 255 := by
  have hm : main P W argv envp s =
      .ret (-1) (({ (setsid (set_sane_term P s1)).emit
          (.execve (.str cmd) (cmdargs argv) envp) with errno := e } : Proc).emit
        (.write 2 ("exec error: " ++ P.strerror (-1) ++ "\n"))) := by
    rw [main_after_console_init P W argv envp s s1 h hc]
    have ha : argv_at argv 2 = .str cmd := by simp [argv_at, hcmd]
    rw [ha]
    unfold sys_execve
    simp only [he]
    rfl
  refine ⟨hm, ?_⟩
  rw [hm]
  rfl

/-- C3 at a failing input: `execve` of `/nonexistent/binary` fails with
`ENOENT` (2); `main` prints the text of error -1 and returns -1, so the exit
status is 255 and neither the text nor the status is that of error 2. -/
theorem main_exec_failure_reports_minus_one :
    demo_world.exec_err "/nonexistent/binary" = some 2 ∧
    (main linux_glibc demo_world ["ttyopen", "/dev/tty1", "/nonexistent/binary"] []
      demo_proc).exit_status = some 255 ∧
    (main linux_glibc demo_world ["ttyopen", "/dev/tty1", "/nonexistent/binary"] []
      demo_proc).state.map (fun s => (s.errno, stderr_text s.trace))
      = some (2, ["exec error: " ++ linux_glibc.strerror (-1) ++ "\n"]) ∧
    linux_glibc.strerror (-1) ≠ linux_glibc.strerror 2 := by
  decide

end TtyOpen
